import Mathlib

/-!
Shallow embedding of the SafeTalk AI moderation / transcription backend
(`com/mhire/app/services/...`), covering the moderation decision engine
(`moderation.py`), the fast moderation + caching layer
(`transcription_with_moderation.py`), the cached transcription service
(`fast_transcription.py`) and the retrying transcription orchestrator
(`transcription.py`).

Modelling conventions:
* Python dicts used as caches become association lists `List (String × α)`
  with first-match lookup and in-place overwrite (`assocSet`).
* `re.search` (Python's regex engine, an external library) is a parameter
  `reSearch : String → String → Bool` of the moderation environment; the
  pattern lists defined in `moderation.py` itself are embedded verbatim,
  while the lists imported from the absent `pattern_utils` module are
  environment parameters.
* `hashlib.md5(s).hexdigest()` is modelled by the (injective) fingerprint
  string `s` itself: only key equality/inequality is observable.
* Python floats are modelled as `ℚ`; `f"{score:.2%}"` formatting is an
  environment parameter `fmtPct`.
* The OpenAI moderation endpoint and the Whisper endpoint are oracles:
  a call outcome is passed in as data.
* `time.time()` is passed in as a parameter `now` (one reading per call).
-/

namespace SafeTalk

/-- Association-list lookup with a default, modelling Python `dict.get(k, d)`. -/
def lookupD {α : Type} (l : List (String × α)) (k : String) (d : α) : α :=
  (l.lookup k).getD d

/-- Python dict assignment `d[k] = v`: overwrite in place if the key exists,
else append (Python dicts preserve insertion order). -/
def assocSet {α : Type} (k : String) (v : α) (l : List (String × α)) :
    List (String × α) :=
  if (l.lookup k).isSome then
    l.map (fun p => if p.1 = k then (k, v) else p)
  else
    l ++ [(k, v)]

/-- Python `str.strip()`: remove leading and trailing whitespace. -/
def pyStrip (s : String) : String :=
  String.mk
    (((s.data.dropWhile Char.isWhitespace).reverse.dropWhile
      Char.isWhitespace).reverse)

/-- Python `sep.join(items)`. -/
def pyJoin (sep : String) : List String → String
  | [] => ""
  | [x] => x
  | x :: y :: t => x ++ sep ++ pyJoin sep (y :: t)

/-! ## moderation.py : constants and pattern tables -/

/-- `CUSTOM_THRESHOLDS` from `moderation.py` (insertion order preserved). -/
def CUSTOM_THRESHOLDS : List (String × ℚ) :=
  [("sexual", 5/100),
   ("harassment", 5/100),
   ("hate", 5/100),
   ("violence", 10/100),
   ("sexual_minors", 1/100),
   ("sexual/minors", 1/100)]

/-- `INAPPROPRIATE_PATTERNS` from `moderation.py`, the explicit-content rule
group (regex sources embedded verbatim; `\x27` is the apostrophe). -/
def INAPPROPRIATE_PATTERNS : List String :=
  ["\\b(fuck|fucking|fucked)\\b",
   "\\b(pussy|dick|cock|penis|vagina)\\b",
   "\\b(cum|cumming|orgasm)\\b",
   "\\b(horny|wet|hard|erect)\\b",
   "\\b(suck|lick|taste|swallow)\\b.*\\b(you|me|it)\\b",
   "\\b(naked|nude|undress|strip)\\b",
   "\\b(bedroom|bed|shower|bath)\\b.*\\b(together|with me|with you)\\b",
   "\\b(kiss|touch|feel|grab)\\b.*\\b(body|skin|lips|neck)\\b",
   "\\bhow far.*\\b(down|up|deep)\\b",
   "\\bslowly.*\\b(kiss|touch|lick)\\b",
   "\\bmake.*\\b(love|out|you moan)\\b",
   "\\b(desire|want|need).*\\b(you|your body)\\b",
   "\\b(turn.*on|turned on|aroused)\\b",
   "\\b(dirty|naughty|bad).*\\b(things|thoughts|ideas)\\b",
   "\\b(69)\\b",
   "\\bwithout\\s+(them|clothes|clothing)\\b",
   "\\bcan\x27t\\s+imagine\\s+how\\s+(good|sexy|hot)\\s+you\\b",
   "\\bhow\\s+(good|sexy|hot)\\s+you\x27ll\\s+look\\s+without\\b",
   "\\blook\\s+(good|sexy|hot)\\s+without\\b",
   "\\bwhat\\s+you\x27re\\s+wearing\\s+under\\b",
   "\\bunderneath\\s+(those|your)\\s+(clothes|clothing)\\b"]

/-- `suggestive_indicators`, the inline rule group of
`check_custom_patterns_only`. -/
def suggestive_indicators : List String :=
  ["\\btonight.*\\bwant\\b",
   "\\bquestion.*\\bhow far\\b",
   "\\bslowly.*\\bkiss.*\\bdown\\b",
   "\\bfrom.*\\blips.*\\bdown\\b"]

/-- Environment for the moderation module: the external regex engine
(`re.search(pattern, text, re.IGNORECASE)` truthiness), the five pattern
tables imported from the repository's `pattern_utils` module (absent from
`src/`, so left abstract), and Python's `f"{score:.2%}"` float formatting. -/
structure ModEnv where
  reSearch : String → String → Bool
  body_shaming_patterns : List String
  emotional_abuse_patterns : List String
  racism_hate_speech_patterns : List String
  transactional_dating_patterns : List String
  sexism_misogyny_transphobia_patterns : List String
  fmtPct : ℚ → String

/-- `any(re.search(p, text, re.IGNORECASE) for p in patterns)`. -/
def anyMatch (reSearch : String → String → Bool) (patterns : List String)
    (text : String) : Bool :=
  patterns.any (fun p => reSearch p text)

/-- `check_custom_patterns_only(text)` from `moderation.py`:
returns `(is_flagged, custom_flags, reason)`. -/
def check_custom_patterns_only (env : ModEnv) (text : String) :
    Bool × List (String × Bool) × String :=
  let textLower := text.toLower
  let explicit_matches := anyMatch env.reSearch INAPPROPRIATE_PATTERNS textLower
  let suggestive_matches := anyMatch env.reSearch suggestive_indicators textLower
  let body_shaming_matches :=
    anyMatch env.reSearch env.body_shaming_patterns textLower
  let emotional_abuse_matches :=
    anyMatch env.reSearch env.emotional_abuse_patterns textLower
  let racism_hate_matches :=
    anyMatch env.reSearch env.racism_hate_speech_patterns textLower
  let transactional_matches :=
    anyMatch env.reSearch env.transactional_dating_patterns textLower
  let sexism_matches :=
    anyMatch env.reSearch env.sexism_misogyny_transphobia_patterns textLower
  let custom_flags : List (String × Bool) :=
    [("explicit_content", explicit_matches),
     ("suggestive_context", suggestive_matches),
     ("body_shaming", body_shaming_matches),
     ("emotional_abuse", emotional_abuse_matches),
     ("racism_hate_speech", racism_hate_matches),
     ("transactional_dating", transactional_matches),
     ("sexism_misogyny_transphobia", sexism_matches)]
  let reasons : List String :=
    (if explicit_matches then ["Explicit sexual/inappropriate language detected"] else []) ++
    (if suggestive_matches then ["Suggestive/sexual context detected"] else []) ++
    (if body_shaming_matches then ["Body shaming/appearance-based harassment detected"] else []) ++
    (if emotional_abuse_matches then ["Emotional abuse/manipulation detected"] else []) ++
    (if racism_hate_matches then ["Racism/hate speech detected"] else []) ++
    (if transactional_matches then ["Transactional/sugar-dating language detected"] else []) ++
    (if sexism_matches then ["Sexism/misogyny/transphobia detected"] else [])
  let is_flagged :=
    lookupD custom_flags "explicit_content" false ||
    lookupD custom_flags "suggestive_context" false ||
    lookupD custom_flags "body_shaming" false ||
    lookupD custom_flags "emotional_abuse" false ||
    lookupD custom_flags "racism_hate_speech" false ||
    lookupD custom_flags "transactional_dating" false ||
    lookupD custom_flags "sexism_misogyny_transphobia" false
  let reason :=
    if reasons.isEmpty then "No custom pattern violations detected"
    else pyJoin "; " reasons
  (is_flagged, custom_flags, reason)

/-! ## moderation.py : OpenAI context analysis and moderate_text -/

/-- Outcome of one call to the external OpenAI moderation endpoint:
either `results[0]` (native flagged bit, per-category booleans, per-category
scores) or a raised exception carrying its message. -/
inductive ClassifierOutcome where
  | ok (flagged : Bool) (categories : List (String × Bool))
      (scores : List (String × ℚ))
  | err (msg : String)
deriving DecidableEq

/-- The `openai_data` dict assembled by `openai_context_analysis` on success
(`{}` on failure is modelled by `Option`). -/
structure OpenAIData where
  categories : List (String × Bool)
  category_scores : List (String × ℚ)
  openai_flagged : Bool
  custom_threshold_violations : List String
deriving DecidableEq

/-- `openai_context_analysis(text)` from `moderation.py`:
returns `(is_flagged, openai_data, reason)`; the `except` branch returns
`(False, {}, f"Context analysis failed: {e}")`. -/
def openai_context_analysis (env : ModEnv) (call : ClassifierOutcome) :
    Bool × Option OpenAIData × String :=
  match call with
  | .ok nativeFlagged cats scores =>
      let flagged_categories := CUSTOM_THRESHOLDS.filterMap (fun p =>
        let score := lookupD scores p.1 0
        if score > p.2 then some (p.1 ++ " (" ++ env.fmtPct score ++ ")")
        else none)
      let is_flagged := nativeFlagged || decide (flagged_categories.length > 0)
      let reason := "OpenAI detected harmful context/intent" ++
        (if flagged_categories.length > 0 then
          ": " ++ pyJoin ", " flagged_categories
        else "")
      (is_flagged,
       some { categories := cats, category_scores := scores,
              openai_flagged := nativeFlagged,
              custom_threshold_violations := flagged_categories },
       reason)
  | .err msg => (false, none, "Context analysis failed: " ++ msg)

/-- The result dict of `moderate_text` / `_fast_moderate_text`; keys absent
from a given branch's dict are `none`. -/
structure ModResult where
  text : String
  flagged : Bool
  detection_method : Option String := none
  openai_flagged : Option Bool := none
  custom_flagged : Option Bool := none
  custom_flags : Option (List (String × Bool)) := none
  reason : Option String := none
  api_call_made : Option Bool := none
  categories : Option (List (String × Bool)) := none
  category_scores : Option (List (String × ℚ)) := none
deriving DecidableEq

/-- `moderate_text(transcribed_text)` from `moderation.py`.  The second
component records whether the OpenAI moderation endpoint was invoked
(the call inside `openai_context_analysis` is attempted whenever step 2
is reached, even if it then raises). -/
def moderate_text (env : ModEnv) (call : ClassifierOutcome)
    (transcribed_text : String) : ModResult × Bool :=
  let c := check_custom_patterns_only env transcribed_text
  let custom_flagged := c.1
  let custom_flags := c.2.1
  if custom_flagged then
    ({ text := transcribed_text, flagged := true,
       custom_flags := some custom_flags }, false)
  else
    let o := openai_context_analysis env call
    let openai_flagged := o.1
    let openai_data := o.2.1
    let openai_reason := o.2.2
    ({ text := transcribed_text,
       flagged := openai_flagged,
       detection_method :=
         some (if openai_flagged then "openai_context_analysis" else "clean"),
       openai_flagged := some ((openai_data.map (·.openai_flagged)).getD false),
       custom_flagged := some false,
       custom_flags := some custom_flags,
       reason := some (if openai_flagged then openai_reason
         else "Content appears safe after full analysis"),
       api_call_made := some true,
       categories := some ((openai_data.map (·.categories)).getD []),
       category_scores := some ((openai_data.map (·.category_scores)).getD []) },
     true)

/-- Modelled from the spec: the data model's `methodUsed` observer
(spec §3, "which stage produced the flag, or that neither did") applied
to a run of the decision engine.  A flag produced without any classifier
invocation came from the pattern stage; a flag after a classifier
invocation came from the classifier; otherwise the verdict is clean. -/
inductive ModMethod where
  | patternMatch
  | classifier
  | clean
deriving DecidableEq

/-- Modelled from the spec: `methodUsed` of a verdict together with whether
the classifier stage was invoked on that run. -/
def methodUsed (r : ModResult) (classifierInvoked : Bool) : ModMethod :=
  if r.flagged && !classifierInvoked then .patternMatch
  else if r.flagged then .classifier
  else .clean

/-! ## Shared cache constants and helpers

`ENABLE_CACHING`, `CACHE_MAX_AGE` and `MAX_CACHE_SIZE` have the same values
in `fast_transcription.py` and `transcription_with_moderation.py`;
`_is_cache_valid`, `_get_file_hash` and the transcription cache key
construction are textually identical in both modules, so they are defined
once. -/

def ENABLE_CACHING : Bool := true

def ENABLE_FAST_MODERATION : Bool := true

/-- `CACHE_MAX_AGE = 3600` (seconds). -/
def CACHE_MAX_AGE : ℚ := 3600

def MAX_CACHE_SIZE : Nat := 1000

/-- `_is_cache_valid(cache_key)` (identical in `fast_transcription.py` and
`transcription_with_moderation.py`), with the module-global
`_cache_timestamps` and the reading of `time.time()` passed explicitly. -/
def is_cache_valid (stamps : List (String × ℚ)) (now : ℚ)
    (cache_key : String) : Bool :=
  if !ENABLE_CACHING then false
  else
    match stamps.lookup cache_key with
    | none => false
    | some timestamp => decide (now - timestamp < CACHE_MAX_AGE)

/-- `_get_file_hash(file_path, file_size, file_mtime)`:
`hashlib.md5(f"{file_path}:{file_size}:{file_mtime}")` modelled as the
fingerprint string itself. -/
def get_file_hash (file_path : String) (file_size : Nat) (file_mtime : ℚ) :
    String :=
  file_path ++ ":" ++ toString file_size ++ ":" ++ toString file_mtime

/-- Request parameters relevant to transcription, from the pydantic request
schemas: `language`/`prompt` optional, `response_format` defaulting to
`"text"`, `temperature` defaulting to `0`. -/
structure TransParams where
  language : Option String
  prompt : Option String
  response_format : String
  temperature : ℚ
deriving DecidableEq

/-- The `params_str` f-string of `_get_cached_transcription` /
`_cache_transcription`; note Python renders a `None` language as the
literal string `"None"`. -/
def paramsString (params : TransParams) : String :=
  (match params.language with | some l => l | none => "None") ++ ":" ++
    params.response_format ++ ":" ++ toString params.temperature

/-- `cache_key = f"transcription:{file_hash}:{params_str}"`. -/
def transcription_cache_key (file_path : String) (file_size : Nat)
    (file_mtime : ℚ) (params : TransParams) : String :=
  "transcription:" ++ get_file_hash file_path file_size file_mtime ++ ":" ++
    paramsString params

/-- `cache_key = f"moderation:{text_hash}"` with md5 modelled as the
fingerprint (the text itself). -/
def moderation_cache_key (text : String) : String :=
  "moderation:" ++ text

/-- The core of both `_get_cached_*` functions:
`if _is_cache_valid(cache_key) and cache_key in cache: return cache[key]`,
else `None`. -/
def cached_lookup {α : Type} (stamps : List (String × ℚ))
    (cache : List (String × α)) (now : ℚ) (key : String) : Option α :=
  if is_cache_valid stamps now key then
    match cache.lookup key with
    | some v => some v
    | none => none
  else none

/-- The transcription result dict cached by both modules
(`transcription_dict` at the call sites); its five keys coincide with the
attributes read off a successful inner `TranscriptionResponse`, so the same
structure models both. -/
structure TranscriptionDict where
  transcript : Option String
  file_path : String
  language_detected : Option String
  duration : Option ℚ
  response_format : String
deriving DecidableEq

/-! ## fast_transcription.py : cached transcription service -/

/-- Module state of `fast_transcription.py`: `_transcription_cache` and
`_cache_timestamps`. -/
structure FastTransState where
  transcriptionCache : List (String × TranscriptionDict)
  cacheTimestamps : List (String × ℚ)
deriving DecidableEq

/-- `_get_cached_transcription(file_path, request_params)` from
`fast_transcription.py`. -/
def get_cached_transcription (st : FastTransState) (now : ℚ)
    (file_path : String) (file_size : Nat) (file_mtime : ℚ)
    (params : TransParams) : Option TranscriptionDict :=
  if !ENABLE_CACHING then none
  else
    cached_lookup st.cacheTimestamps st.transcriptionCache now
      (transcription_cache_key file_path file_size file_mtime params)

/-- `_cleanup_old_cache_entries()` from `fast_transcription.py`: removes
every expired `transcription:` key from both the timestamps map and the
cache. -/
def cleanup_old_cache_entries_fast (st : FastTransState) (now : ℚ) :
    FastTransState :=
  let expired := (st.cacheTimestamps.filter (fun p =>
    decide (now - p.2 > CACHE_MAX_AGE) && p.1.startsWith "transcription:")).map
      Prod.fst
  { cacheTimestamps := st.cacheTimestamps.filter (fun p => !expired.contains p.1),
    transcriptionCache :=
      st.transcriptionCache.filter (fun p => !expired.contains p.1) }

/-- `_cache_transcription(file_path, request_params, result)` from
`fast_transcription.py`. -/
def cache_transcription (st : FastTransState) (now : ℚ) (file_path : String)
    (file_size : Nat) (file_mtime : ℚ) (params : TransParams)
    (result : TranscriptionDict) : FastTransState :=
  if !ENABLE_CACHING then st
  else
    let key := transcription_cache_key file_path file_size file_mtime params
    let st1 : FastTransState :=
      { transcriptionCache := assocSet key result st.transcriptionCache,
        cacheTimestamps := assocSet key now st.cacheTimestamps }
    if st1.transcriptionCache.length > MAX_CACHE_SIZE then
      cleanup_old_cache_entries_fast st1 now
    else st1

/-- Outcome of one call to `transcribe_audio_file` (the inner transcription
orchestrator, treated here as an oracle): a successful response (whose five
relevant attributes form a `TranscriptionDict`) or a `TranscriptionError`
with its `error_type` and `error_message`. -/
inductive TransOutcome where
  | ok (resp : TranscriptionDict)
  | err (error_type : String) (error_message : String)
deriving DecidableEq

/-- `TranscriptionResponse` from `fast_transcription_schema.py`. -/
structure TranscriptionResponse where
  success : Bool
  transcript : Option String
  file_path : String
  language_detected : Option String
  duration : Option ℚ
  response_format : String
deriving DecidableEq

/-- `TranscriptionError` from `fast_transcription_schema.py` (also the shape
of `TranscriptionWithModerationError`, which has the same four fields plus
the implicit `success=False`). -/
structure TranscriptionErrorResp where
  success : Bool := false
  error_type : String
  error_message : String
  file_path : Option String
  stage : String
deriving DecidableEq

/-- `FastTranscriptionService.transcribe(request)` from
`fast_transcription.py`.  The external transcription call is the oracle
`provider`; the returned `Nat` counts how many times it was invoked. -/
def fast_transcribe (provider : TransOutcome) (st : FastTransState)
    (now : ℚ) (file_path : String) (file_size : Nat) (file_mtime : ℚ)
    (params : TransParams) :
    (TranscriptionResponse ⊕ TranscriptionErrorResp) × FastTransState × Nat :=
  match get_cached_transcription st now file_path file_size file_mtime params with
  | some cached =>
      (.inl { success := true, transcript := cached.transcript,
              file_path := cached.file_path,
              language_detected := cached.language_detected,
              duration := cached.duration,
              response_format := cached.response_format }, st, 0)
  | none =>
      match provider with
      | .err et em =>
          (.inr { error_type := et,
                  error_message := "Transcription failed: " ++ em,
                  file_path := some file_path,
                  stage := "transcription" }, st, 1)
      | .ok r =>
          let transcription_dict : TranscriptionDict :=
            { transcript := r.transcript, file_path := r.file_path,
              language_detected := r.language_detected,
              duration := r.duration, response_format := r.response_format }
          let st1 := cache_transcription st now file_path file_size file_mtime
            params transcription_dict
          (.inl { success := true, transcript := r.transcript,
                  file_path := r.file_path,
                  language_detected := r.language_detected,
                  duration := r.duration,
                  response_format := r.response_format }, st1, 1)

/-! ## transcription_with_moderation.py : fast moderation with caching -/

/-- Module state of `transcription_with_moderation.py`:
`_transcription_cache`, `_moderation_cache` and the shared
`_cache_timestamps`. -/
structure TwmState where
  transcriptionCache : List (String × TranscriptionDict)
  moderationCache : List (String × ModResult)
  cacheTimestamps : List (String × ℚ)
deriving DecidableEq

/-- `_cleanup_old_cache_entries()` from `transcription_with_moderation.py`:
every expired key leaves the timestamps map; a `transcription:` key leaves
the transcription cache, else a `moderation:` key leaves the moderation
cache. -/
def cleanup_old_cache_entries_twm (st : TwmState) (now : ℚ) : TwmState :=
  let expired := (st.cacheTimestamps.filter (fun p =>
    decide (now - p.2 > CACHE_MAX_AGE))).map Prod.fst
  { cacheTimestamps := st.cacheTimestamps.filter (fun p => !expired.contains p.1),
    transcriptionCache := st.transcriptionCache.filter (fun p =>
      !(expired.contains p.1 && p.1.startsWith "transcription:")),
    moderationCache := st.moderationCache.filter (fun p =>
      !(expired.contains p.1 && !p.1.startsWith "transcription:" &&
        p.1.startsWith "moderation:")) }

/-- `_get_cached_transcription` from `transcription_with_moderation.py`
(same code as in `fast_transcription.py`, over this module's state). -/
def twm_get_cached_transcription (st : TwmState) (now : ℚ)
    (file_path : String) (file_size : Nat) (file_mtime : ℚ)
    (params : TransParams) : Option TranscriptionDict :=
  if !ENABLE_CACHING then none
  else
    cached_lookup st.cacheTimestamps st.transcriptionCache now
      (transcription_cache_key file_path file_size file_mtime params)

/-- `_cache_transcription` from `transcription_with_moderation.py`. -/
def twm_cache_transcription (st : TwmState) (now : ℚ) (file_path : String)
    (file_size : Nat) (file_mtime : ℚ) (params : TransParams)
    (result : TranscriptionDict) : TwmState :=
  if !ENABLE_CACHING then st
  else
    let key := transcription_cache_key file_path file_size file_mtime params
    let st1 : TwmState :=
      { st with transcriptionCache := assocSet key result st.transcriptionCache,
                cacheTimestamps := assocSet key now st.cacheTimestamps }
    if st1.transcriptionCache.length > MAX_CACHE_SIZE then
      cleanup_old_cache_entries_twm st1 now
    else st1

/-- `_get_cached_moderation(text)` from `transcription_with_moderation.py`. -/
def get_cached_moderation (st : TwmState) (now : ℚ) (text : String) :
    Option ModResult :=
  if !ENABLE_CACHING then none
  else
    cached_lookup st.cacheTimestamps st.moderationCache now
      (moderation_cache_key text)

/-- `_cache_moderation(text, result)` from
`transcription_with_moderation.py`. -/
def cache_moderation (st : TwmState) (now : ℚ) (text : String)
    (result : ModResult) : TwmState :=
  if !ENABLE_CACHING then st
  else
    let key := moderation_cache_key text
    let st1 : TwmState :=
      { st with moderationCache := assocSet key result st.moderationCache,
                cacheTimestamps := assocSet key now st.cacheTimestamps }
    if st1.moderationCache.length > MAX_CACHE_SIZE then
      cleanup_old_cache_entries_twm st1 now
    else st1

/-- `_fast_moderate_text(text)` from `transcription_with_moderation.py`.
The middle component records whether the OpenAI moderation endpoint was
invoked; the last is the updated module state. -/
def fast_moderate_text (env : ModEnv) (call : ClassifierOutcome)
    (st : TwmState) (now : ℚ) (text : String) :
    ModResult × Bool × TwmState :=
  if text = "" || pyStrip text = "" then
    ({ text := text, flagged := false, reason := some "Empty text",
       custom_flagged := some false, custom_flags := some [] }, false, st)
  else
    match get_cached_moderation st now text with
    | some cached_result => (cached_result, false, st)
    | none =>
        let step2 : TwmState → ModResult × Bool × TwmState := fun s =>
          let m := moderate_text env call text
          (m.1, m.2, cache_moderation s now text m.1)
        if ENABLE_FAST_MODERATION then
          let c := check_custom_patterns_only env text
          if c.1 then
            let result : ModResult :=
              { text := text, flagged := true, reason := some c.2.2,
                custom_flagged := some true, custom_flags := some c.2.1 }
            (result, false, cache_moderation st now text result)
          else step2 st
        else step2 st

/-- `TranscriptionWithModerationResponse` as constructed by
`transcribe_and_moderate` (its schema module is absent from `src/`; the
fields are those passed at both construction sites). -/
structure TwmResponse where
  success : Bool
  transcript : Option String
  file_path : String
  language_detected : Option String
  duration : Option ℚ
  response_format : String
  moderation_flagged : Bool
  moderation_reason : String
  is_safe : Bool
deriving DecidableEq

/-- `FastTranscriptionWithModerationService.transcribe_and_moderate(request)`
from `transcription_with_moderation.py`.  The inner transcription call is
the oracle `provider`; file size/mtime come from `_get_file_info`.  A
cached or fresh transcription dict feeds `_fast_moderate_text` (whose
`None` transcript behaves like the empty string: both are falsy in the
guard `if not text`). -/
def transcribe_and_moderate (env : ModEnv) (call : ClassifierOutcome)
    (provider : TransOutcome) (st : TwmState) (now : ℚ)
    (file_path : String) (file_size : Nat) (file_mtime : ℚ)
    (params : TransParams) :
    (TwmResponse ⊕ TranscriptionErrorResp) × TwmState :=
  match twm_get_cached_transcription st now file_path file_size file_mtime params with
  | some cached =>
      let m := fast_moderate_text env call st now (cached.transcript.getD "")
      (.inl { success := true, transcript := cached.transcript,
              file_path := cached.file_path,
              language_detected := cached.language_detected,
              duration := cached.duration,
              response_format := cached.response_format,
              moderation_flagged := m.1.flagged,
              moderation_reason := m.1.reason.getD "No issues detected",
              is_safe := !m.1.flagged }, m.2.2)
  | none =>
      match provider with
      | .err et em =>
          (.inr { error_type := et,
                  error_message := "Transcription failed: " ++ em,
                  file_path := some file_path,
                  stage := "transcription" }, st)
      | .ok r =>
          let transcription_dict : TranscriptionDict :=
            { transcript := r.transcript, file_path := r.file_path,
              language_detected := r.language_detected,
              duration := r.duration, response_format := r.response_format }
          let st1 := twm_cache_transcription st now file_path file_size
            file_mtime params transcription_dict
          let m := fast_moderate_text env call st1 now (r.transcript.getD "")
          (.inl { success := true, transcript := r.transcript,
                  file_path := r.file_path,
                  language_detected := r.language_detected,
                  duration := r.duration,
                  response_format := r.response_format,
                  moderation_flagged := m.1.flagged,
                  moderation_reason := m.1.reason.getD "No issues detected",
                  is_safe := !m.1.flagged }, m.2.2)

/-! ## transcription.py : confidence scoring and retry loop -/

/-- `_calculate_confidence_score(transcript_response)` from
`transcription.py`.  The provider response's segment list is `none` when
the `segments` attribute is absent; each segment may or may not carry an
`avg_logprob`.  With segments present and at least one `avg_logprob`, the
score is `max(0, min(1, mean + 1))`; otherwise the default `0.85`. -/
def calculate_confidence_score (segments : Option (List (Option ℚ))) : ℚ :=
  let default_confidence : ℚ := 85/100
  match segments with
  | none => default_confidence
  | some segs =>
      if segs.isEmpty then default_confidence
      else
        let logprobs := segs.filterMap id
        if logprobs.length > 0 then
          let avg_confidence := logprobs.sum / (logprobs.length : ℚ)
          max 0 (min 1 (avg_confidence + 1))
        else default_confidence

/-- Outcome of one attempt of
`self.client.audio.transcriptions.create(...)`: success, a raised
`openai.RateLimitError`, a raised `openai.APITimeoutError`, or any other
raised `openai.OpenAIError`. -/
inductive AttemptOutcome where
  | success
  | rateLimit
  | timeout
  | apiError
deriving DecidableEq

/-- The exception class escaping the retry loop, if any. -/
inductive RaisedExc where
  | rateLimitExc
  | timeoutExc
  | apiErrorExc
deriving DecidableEq

/-- Observable trace of the retry loop in
`TranscriptionService.transcribe_audio` (`for attempt in
range(max_retries + 1)`): at which attempt index the call succeeded (if
any), how many provider calls were made, the `time.sleep` durations
performed between attempts, and the exception escaping the loop (if any). -/
structure RetryRun where
  succeededAt : Option Nat
  calls : Nat
  sleeps : List Nat
  errorRaised : Option RaisedExc
deriving DecidableEq

def max_retries : Nat := 2

/-- One iteration of the retry loop of
`TranscriptionService.transcribe_audio` at a given attempt index: success
breaks out; `RateLimitError` sleeps `(attempt + 1) * 2` seconds and retries
(`rest`) while `attempt < max_retries`, else re-raises; `APITimeoutError`
retries immediately — no sleep — while `attempt < max_retries`, else
re-raises; any other `OpenAIError` propagates at once. -/
def transcribe_attempt_step (oracle : Nat → AttemptOutcome) (attempt : Nat)
    (rest : RetryRun) : RetryRun :=
  match oracle attempt with
  | .success =>
      { succeededAt := some attempt, calls := 1, sleeps := [],
        errorRaised := none }
  | .rateLimit =>
      if attempt < max_retries then
        { succeededAt := rest.succeededAt, calls := rest.calls + 1,
          sleeps := (attempt + 1) * 2 :: rest.sleeps,
          errorRaised := rest.errorRaised }
      else
        { succeededAt := none, calls := 1, sleeps := [],
          errorRaised := some .rateLimitExc }
  | .timeout =>
      if attempt < max_retries then
        { succeededAt := rest.succeededAt, calls := rest.calls + 1,
          sleeps := rest.sleeps, errorRaised := rest.errorRaised }
      else
        { succeededAt := none, calls := 1, sleeps := [],
          errorRaised := some .timeoutExc }
  | .apiError =>
      { succeededAt := none, calls := 1, sleeps := [],
        errorRaised := some .apiErrorExc }

/-- The full retry loop `for attempt in range(max_retries + 1)` of
`TranscriptionService.transcribe_audio`, unrolled over its three possible
attempt indices (0, 1, 2).  The continuation of the last iteration is
unreachable: at `attempt = max_retries` both retryable branches re-raise
instead of recursing. -/
def transcribe_attempt_loop (oracle : Nat → AttemptOutcome) : RetryRun :=
  transcribe_attempt_step oracle 0
    (transcribe_attempt_step oracle 1
      (transcribe_attempt_step oracle 2
        { succeededAt := none, calls := 0, sleeps := [],
          errorRaised := none }))

/-- `TranscriptionError` as constructed inside `transcription.py` (its
schema module is absent from `src/`; the three fields are those passed at
every construction site there). -/
structure CoreTranscriptionError where
  error_type : String
  error_message : String
  file_path : String
deriving DecidableEq

/-- The error surfaced by `transcribe_audio` when the retry loop lets an
exception escape: `except openai.OpenAIError` turns any of the three
classes into a typed `TranscriptionError` with `error_type="OpenAIError"`. -/
def transcribe_audio_error (run : RetryRun) (file_path : String) :
    Option CoreTranscriptionError :=
  match run.errorRaised with
  | none => none
  | some _ =>
      some { error_type := "OpenAIError",
             error_message := "API error", file_path := file_path }

/-! ## Observers and helper lemmas -/

/-- The seven rule-group keys of `check_custom_patterns_only`, in
evaluation order. -/
def group_keys : List String :=
  ["explicit_content", "suggestive_context", "body_shaming",
   "emotional_abuse", "racism_hate_speech", "transactional_dating",
   "sexism_misogyny_transphobia"]

/-- The seven per-group match results of `check_custom_patterns_only`, in
evaluation order. -/
def group_matches (env : ModEnv) (text : String) : List Bool :=
  [anyMatch env.reSearch INAPPROPRIATE_PATTERNS text.toLower,
   anyMatch env.reSearch suggestive_indicators text.toLower,
   anyMatch env.reSearch env.body_shaming_patterns text.toLower,
   anyMatch env.reSearch env.emotional_abuse_patterns text.toLower,
   anyMatch env.reSearch env.racism_hate_speech_patterns text.toLower,
   anyMatch env.reSearch env.transactional_dating_patterns text.toLower,
   anyMatch env.reSearch env.sexism_misogyny_transphobia_patterns text.toLower]

/-- The human-readable description of each rule group, in the same order. -/
def group_descriptions : List String :=
  ["Explicit sexual/inappropriate language detected",
   "Suggestive/sexual context detected",
   "Body shaming/appearance-based harassment detected",
   "Emotional abuse/manipulation detected",
   "Racism/hate speech detected",
   "Transactional/sugar-dating language detected",
   "Sexism/misogyny/transphobia detected"]

lemma check_flags_eq (env : ModEnv) (text : String) :
    (check_custom_patterns_only env text).2.1 =
      group_keys.zip (group_matches env text) := rfl

lemma bool7_or_any (a b c d e f g : Bool) :
    (a || b || c || d || e || f || g) = [a, b, c, d, e, f, g].any id := by
  cases a <;> simp [Bool.or_assoc]

lemma check_flagged_eq (env : ModEnv) (text : String) :
    (check_custom_patterns_only env text).1 =
      (group_matches env text).any id := by
  simp only [check_custom_patterns_only, group_matches, lookupD, List.lookup]
  cases anyMatch env.reSearch INAPPROPRIATE_PATTERNS text.toLower <;> simp [Bool.or_assoc]

lemma reasons_join (a b c d e f g : Bool) (d1 d2 d3 d4 d5 d6 d7 : String) :
    (let reasons :=
      (if a then [d1] else []) ++ (if b then [d2] else []) ++
      (if c then [d3] else []) ++ (if d then [d4] else []) ++
      (if e then [d5] else []) ++ (if f then [d6] else []) ++
      (if g then [d7] else [])
     if reasons.isEmpty then "No custom pattern violations detected"
     else pyJoin "; " reasons) =
    (if [a, b, c, d, e, f, g].any id then
      pyJoin "; " (([d1, d2, d3, d4, d5, d6, d7].zip
        [a, b, c, d, e, f, g]).filterMap
          (fun p => if p.2 then some p.1 else none))
     else "No custom pattern violations detected") := by
  cases a <;> cases b <;> cases c <;> cases d <;> cases e <;> cases f <;>
    cases g <;> rfl

lemma check_reason_eq (env : ModEnv) (text : String) :
    (check_custom_patterns_only env text).2.2 =
      (if (group_matches env text).any id then
        pyJoin "; " ((group_descriptions.zip
          (group_matches env text)).filterMap
            (fun p => if p.2 then some p.1 else none))
       else "No custom pattern violations detected") := by
  simpa only [check_custom_patterns_only, group_matches, group_descriptions]
    using reasons_join
      (anyMatch env.reSearch INAPPROPRIATE_PATTERNS text.toLower)
      (anyMatch env.reSearch suggestive_indicators text.toLower)
      (anyMatch env.reSearch env.body_shaming_patterns text.toLower)
      (anyMatch env.reSearch env.emotional_abuse_patterns text.toLower)
      (anyMatch env.reSearch env.racism_hate_speech_patterns text.toLower)
      (anyMatch env.reSearch env.transactional_dating_patterns text.toLower)
      (anyMatch env.reSearch env.sexism_misogyny_transphobia_patterns
        text.toLower)
      "Explicit sexual/inappropriate language detected"
      "Suggestive/sexual context detected"
      "Body shaming/appearance-based harassment detected"
      "Emotional abuse/manipulation detected"
      "Racism/hate speech detected"
      "Transactional/sugar-dating language detected"
      "Sexism/misogyny/transphobia detected"

/-- Concrete moderation environment whose regex engine matches nothing and
whose imported pattern tables are empty (used by concrete evaluations). -/
def envNone : ModEnv :=
  { reSearch := fun _ _ => false,
    body_shaming_patterns := [],
    emotional_abuse_patterns := [],
    racism_hate_speech_patterns := [],
    transactional_dating_patterns := [],
    sexism_misogyny_transphobia_patterns := [],
    fmtPct := fun q => toString q }

/-- Concrete moderation environment whose regex engine matches everything
(used by concrete evaluations). -/
def envAll : ModEnv :=
  { envNone with reSearch := fun _ _ => true }

lemma pyJoin_infix (sep x : String) (l : List String) (hx : x ∈ l) :
    ∃ a b, pyJoin sep l = a ++ x ++ b := by
  induction l with
  | nil => cases hx
  | cons y t ih =>
    rcases List.mem_cons.mp hx with h | h
    · subst h
      cases t with
      | nil => exact ⟨"", "", by simp [pyJoin]⟩
      | cons z t' =>
        refine ⟨"", sep ++ pyJoin sep (z :: t'), ?_⟩
        simp [pyJoin, String.append_assoc]
    · cases t with
      | nil => cases h
      | cons z t' =>
        obtain ⟨a, b, hab⟩ := ih h
        refine ⟨y ++ sep ++ a, b, ?_⟩
        simp only [pyJoin, hab, String.append_assoc]

/-! ## Claims -/

/-- C4: for every input text, the pattern matcher
(`check_custom_patterns_only`) evaluates all seven rule groups — the
returned `custom_flags` maps each of the seven group keys, in order, to
that group's own match result, independent of the others (no early exit);
its flagged bit equals the logical OR of the seven per-group results; and
its reason is the `"; "`-join of the descriptions of every matched group,
or the fixed no-violations message when none matched.  Purity and
determinism hold because `check_custom_patterns_only` is a function of the
environment and the text alone. -/
theorem C4_pattern_matcher_all_groups (env : ModEnv) (text : String) :
    (check_custom_patterns_only env text).2.1.map Prod.fst = group_keys ∧
    (check_custom_patterns_only env text).2.1.map Prod.snd =
      group_matches env text ∧
    (check_custom_patterns_only env text).1 =
      (group_matches env text).any id ∧
    (check_custom_patterns_only env text).2.2 =
      (if (group_matches env text).any id then
        pyJoin "; " ((group_descriptions.zip
          (group_matches env text)).filterMap
            (fun p => if p.2 then some p.1 else none))
       else "No custom pattern violations detected") := by
  refine ⟨?_, ?_, check_flagged_eq env text, check_reason_eq env text⟩
  · rw [check_flags_eq]; rfl
  · rw [check_flags_eq]; rfl

/-- C1: for every input text on which at least one pattern-matcher rule
group matches, both `moderate_text` and `_fast_moderate_text` (on a
moderation-cache miss; whitespace-only text is excluded because no
word-boundary rule can match it under the real regex engine, which the
abstract `reSearch` cannot express) return a verdict with `flagged = true`
whose `methodUsed` observer is `pattern-match`, and the classifier stage
is never invoked on that path. -/
theorem C1_pattern_short_circuit (env : ModEnv) (call : ClassifierOutcome)
    (st : TwmState) (now : ℚ) (text : String)
    (hmatch : (group_matches env text).any id = true)
    (htext : ¬(text = "" ∨ pyStrip text = ""))
    (hmiss : get_cached_moderation st now text = none) :
    (moderate_text env call text).1.flagged = true ∧
    (moderate_text env call text).2 = false ∧
    methodUsed (moderate_text env call text).1
      (moderate_text env call text).2 = .patternMatch ∧
    (fast_moderate_text env call st now text).1.flagged = true ∧
    (fast_moderate_text env call st now text).2.1 = false ∧
    methodUsed (fast_moderate_text env call st now text).1
      (fast_moderate_text env call st now text).2.1 = .patternMatch := by
  have hb : (check_custom_patterns_only env text).1 = true := by
    rw [check_flagged_eq]; exact hmatch
  push_neg at htext
  obtain ⟨h1, h2⟩ := htext
  have hm : moderate_text env call text =
      ({ text := text, flagged := true,
         custom_flags := some (check_custom_patterns_only env text).2.1 },
       false) := by
    simp [moderate_text, hb]
  have hf : fast_moderate_text env call st now text =
      ({ text := text, flagged := true,
         reason := some (check_custom_patterns_only env text).2.2,
         custom_flagged := some true,
         custom_flags := some (check_custom_patterns_only env text).2.1 },
       false,
       cache_moderation st now text
         { text := text, flagged := true,
           reason := some (check_custom_patterns_only env text).2.2,
           custom_flagged := some true,
           custom_flags := some (check_custom_patterns_only env text).2.1 }) := by
    simp [fast_moderate_text, h1, h2, hmiss, ENABLE_FAST_MODERATION, hb]
  refine ⟨?_, ?_, ?_, ?_, ?_, ?_⟩ <;> simp [hm, hf, methodUsed]

/-- C1 witness: a concrete environment whose regex engine matches
everything, on the text `"hello"`, with an empty cache. -/
theorem C1_pattern_short_circuit_witness :
    ((group_matches envAll "hello").any id = true ∧
      ¬("hello" = "" ∨ pyStrip "hello" = "") ∧
      get_cached_moderation ⟨[], [], []⟩ 0 "hello" = none) ∧
    ((moderate_text envAll (.err "e") "hello").1.flagged = true ∧
      (moderate_text envAll (.err "e") "hello").2 = false ∧
      methodUsed (moderate_text envAll (.err "e") "hello").1
        (moderate_text envAll (.err "e") "hello").2 = .patternMatch ∧
      (fast_moderate_text envAll (.err "e") ⟨[], [], []⟩ 0 "hello").1.flagged = true ∧
      (fast_moderate_text envAll (.err "e") ⟨[], [], []⟩ 0 "hello").2.1 = false ∧
      methodUsed (fast_moderate_text envAll (.err "e") ⟨[], [], []⟩ 0 "hello").1
        (fast_moderate_text envAll (.err "e") ⟨[], [], []⟩ 0 "hello").2.1 =
          .patternMatch) :=
  ⟨⟨by decide, by decide, by decide⟩,
   C1_pattern_short_circuit envAll (.err "e") ⟨[], [], []⟩ 0 "hello"
     (by decide) (by decide) (by decide)⟩

/-- C2 counterexample: on the pattern-clean text `"hello"` with a failing
classifier (message `"boom"`), `moderate_text` does return
`flagged = false`, but the verdict's reason is the fixed safe-content
message: it does not contain the failure message, contradicting the
claim that the returned verdict's reason reflects the failure. -/
theorem C2_reason_dropped_counterexample :
    (check_custom_patterns_only envNone "hello").1 = false ∧
    (moderate_text envNone (.err "boom") "hello").1.flagged = false ∧
    (moderate_text envNone (.err "boom") "hello").1.reason =
      some "Content appears safe after full analysis" ∧
    ¬ ("boom".data <:+:
      ((moderate_text envNone (.err "boom") "hello").1.reason.getD "").data) := by
  refine ⟨by decide, by decide, by decide, by decide⟩

/-- C2 amended: if the classifier call fails on pattern-clean text, the
decision treats the text as not flagged and no exception propagates
(fail-open); the adapter-level reason does record the failure
(`"Context analysis failed: <e>"`), but the final verdict's reason is the
fixed `"Content appears safe after full analysis"` message with
`detection_method = "clean"` — the failure string is dropped from the
verdict. -/
theorem C2_fail_open_amended (env : ModEnv) (msg text : String)
    (hclean : (check_custom_patterns_only env text).1 = false) :
    openai_context_analysis env (.err msg) =
      (false, none, "Context analysis failed: " ++ msg) ∧
    (moderate_text env (.err msg) text).1.flagged = false ∧
    (moderate_text env (.err msg) text).2 = true ∧
    (moderate_text env (.err msg) text).1.reason =
      some "Content appears safe after full analysis" ∧
    (moderate_text env (.err msg) text).1.detection_method = some "clean" := by
  refine ⟨rfl, ?_, ?_, ?_, ?_⟩ <;>
    simp [moderate_text, hclean, openai_context_analysis]

/-- C2 amended witness: concrete no-match environment, failure message
`"boom"`, text `"hello"`. -/
theorem C2_fail_open_amended_witness :
    (check_custom_patterns_only envNone "hello").1 = false ∧
    (openai_context_analysis envNone (.err "boom") =
      (false, none, "Context analysis failed: " ++ "boom") ∧
    (moderate_text envNone (.err "boom") "hello").1.flagged = false ∧
    (moderate_text envNone (.err "boom") "hello").2 = true ∧
    (moderate_text envNone (.err "boom") "hello").1.reason =
      some "Content appears safe after full analysis" ∧
    (moderate_text envNone (.err "boom") "hello").1.detection_method =
      some "clean") :=
  ⟨by decide, C2_fail_open_amended envNone "boom" "hello" (by decide)⟩

lemma not_isEmpty_of_mem {α : Type} {x : α} {l : List α} (hx : x ∈ l) :
    l.isEmpty = false := by
  cases l with
  | nil => cases hx
  | cons y t => rfl

/-- C3: for every text with zero pattern matches, if at least one
classifier category score is strictly greater than its entry in
`CUSTOM_THRESHOLDS`, the verdict of `moderate_text` has `flagged = true`
and its reason contains that category name with its score rendered as a
percentage (`f"{score:.2%}"`, modelled by `fmtPct`); the flag computed on
this path equals the provider's native flag OR the non-emptiness of the
custom-threshold violations list. -/
theorem C3_threshold_violation_flags (env : ModEnv) (native : Bool)
    (cats : List (String × Bool)) (scores : List (String × ℚ))
    (text cat : String) (th : ℚ)
    (hclean : (check_custom_patterns_only env text).1 = false)
    (hmem : (cat, th) ∈ CUSTOM_THRESHOLDS)
    (hgt : lookupD scores cat 0 > th) :
    (moderate_text env (.ok native cats scores) text).1.flagged = true ∧
    (∃ a b, (moderate_text env (.ok native cats scores) text).1.reason.getD "" =
      a ++ (cat ++ " (" ++ env.fmtPct (lookupD scores cat 0) ++ ")") ++ b) ∧
    (openai_context_analysis env (.ok native cats scores)).1 =
      (native ||
        !(((openai_context_analysis env (.ok native cats scores)).2.1.map
          (fun d => d.custom_threshold_violations)).getD []).isEmpty) := by
  set fc := CUSTOM_THRESHOLDS.filterMap (fun p =>
    let score := lookupD scores p.1 0
    if score > p.2 then some (p.1 ++ " (" ++ env.fmtPct score ++ ")")
    else none) with hfc
  have hmem2 : (cat ++ " (" ++ env.fmtPct (lookupD scores cat 0) ++ ")") ∈ fc := by
    rw [hfc]
    exact List.mem_filterMap.mpr ⟨(cat, th), hmem, by simp [hgt]⟩
  have hlen : 0 < fc.length := List.length_pos.mpr (List.ne_nil_of_mem hmem2)
  have hoc : (openai_context_analysis env (.ok native cats scores)).1 = true := by
    simp [openai_context_analysis, ← hfc, hlen]
  have hreason : (openai_context_analysis env (.ok native cats scores)).2.2 =
      "OpenAI detected harmful context/intent: " ++ pyJoin ", " fc := by
    simp [openai_context_analysis, ← hfc, hlen, ← String.append_assoc]
  refine ⟨?_, ?_, ?_⟩
  · simp [moderate_text, hclean, hoc]
  · obtain ⟨a, b, hab⟩ := pyJoin_infix ", "
      (cat ++ " (" ++ env.fmtPct (lookupD scores cat 0) ++ ")") fc hmem2
    refine ⟨"OpenAI detected harmful context/intent: " ++ a, b, ?_⟩
    have hr2 : (moderate_text env (.ok native cats scores) text).1.reason =
        some ((openai_context_analysis env (.ok native cats scores)).2.2) := by
      simp [moderate_text, hclean, hoc]
    rw [hr2, Option.getD_some, hreason, hab]
    simp [String.append_assoc]
  · rw [hoc]
    have hdata : ((openai_context_analysis env (.ok native cats scores)).2.1.map
        (fun d => d.custom_threshold_violations)).getD [] = fc := by
      simp [openai_context_analysis, ← hfc]
    rw [hdata, not_isEmpty_of_mem hmem2]
    simp [hlen]

/-- C3 witness: no-match environment, native flag false, a `"sexual"` score
of 10% against the 5% threshold, text `"hello"`. -/
theorem C3_threshold_violation_flags_witness :
    ((check_custom_patterns_only envNone "hello").1 = false ∧
      ("sexual", (5/100 : ℚ)) ∈ CUSTOM_THRESHOLDS ∧
      lookupD [("sexual", (1/10 : ℚ))] "sexual" 0 > 5/100) ∧
    ((moderate_text envNone (.ok false [] [("sexual", 1/10)])
        "hello").1.flagged = true ∧
      (∃ a b, (moderate_text envNone (.ok false [] [("sexual", 1/10)])
          "hello").1.reason.getD "" =
        a ++ ("sexual" ++ " (" ++ envNone.fmtPct
          (lookupD [("sexual", (1/10 : ℚ))] "sexual" 0) ++ ")") ++ b) ∧
      (openai_context_analysis envNone (.ok false [] [("sexual", 1/10)])).1 =
        (false ||
          !(((openai_context_analysis envNone
              (.ok false [] [("sexual", 1/10)])).2.1.map
            (fun d => d.custom_threshold_violations)).getD []).isEmpty)) :=
  ⟨⟨by decide, by simp [CUSTOM_THRESHOLDS], by simp [lookupD]; norm_num⟩,
   C3_threshold_violation_flags envNone false [] [("sexual", 1/10)]
     "hello" "sexual" (5/100) (by decide) (by simp [CUSTOM_THRESHOLDS])
     (by simp [lookupD]; norm_num)⟩

/-- C5 counterexample: plain `moderate_text` has no empty-text
short-circuit — on `""` (pattern-clean) it reaches step 2 and invokes the
classifier — and the two `_fast_moderate_text` verdicts for `""` and
`"   "` are not the same dict (their `text` fields echo the input). -/
theorem C5_empty_text_counterexample :
    (check_custom_patterns_only envNone "").1 = false ∧
    (moderate_text envNone (.err "x") "").2 = true ∧
    (fast_moderate_text envNone (.err "x") ⟨[], [], []⟩ 0 "").1 ≠
      (fast_moderate_text envNone (.err "x") ⟨[], [], []⟩ 0 "   ").1 :=
  ⟨by decide, by decide, by decide⟩

/-- C5 amended: `_fast_moderate_text` (not `moderate_text`, which has no
such guard and invokes the classifier even on empty input) short-circuits
empty or whitespace-only text to `flagged = false` with the fixed
`"Empty text"` reason, touching neither the pattern matcher nor the
classifier nor the cache; the verdicts for `""` and `"   "` agree on every
field except `text`, which echoes the input. -/
theorem C5_empty_text_amended (env : ModEnv) (call : ClassifierOutcome)
    (st : TwmState) (now : ℚ) (text : String)
    (htext : text = "" ∨ pyStrip text = "")
    (hclean : (check_custom_patterns_only env "").1 = false) :
    fast_moderate_text env call st now text =
      ({ text := text, flagged := false, reason := some "Empty text",
         custom_flagged := some false, custom_flags := some [] }, false, st) ∧
    (fast_moderate_text env call st now "").1 =
      { (fast_moderate_text env call st now "   ").1 with text := "" } ∧
    (moderate_text env call "").2 = true := by
  have hsp : pyStrip "   " = "" := by decide
  refine ⟨?_, ?_, ?_⟩
  · rcases htext with h | h <;> simp [fast_moderate_text, h]
  · simp [fast_moderate_text, hsp]
  · simp [moderate_text, hclean]

/-- C5 amended witness: whitespace-only text `"   "`, empty cache. -/
theorem C5_empty_text_amended_witness :
    (("   " = "" ∨ pyStrip "   " = "") ∧
      (check_custom_patterns_only envNone "").1 = false) ∧
    (fast_moderate_text envNone (.err "x") ⟨[], [], []⟩ 0 "   " =
      ({ text := "   ", flagged := false, reason := some "Empty text",
         custom_flagged := some false, custom_flags := some [] }, false,
       (⟨[], [], []⟩ : TwmState)) ∧
    (fast_moderate_text envNone (.err "x") ⟨[], [], []⟩ 0 "").1 =
      { (fast_moderate_text envNone (.err "x") ⟨[], [], []⟩ 0 "   ").1 with
          text := "" } ∧
    (moderate_text envNone (.err "x") "").2 = true) :=
  ⟨⟨Or.inr (by decide), by decide⟩,
   C5_empty_text_amended envNone (.err "x") ⟨[], [], []⟩ 0 "   "
     (Or.inr (by decide)) (by decide)⟩

/-- C6: the computed transcription confidence is always in [0,1]; when at
least one segment-level average log-probability is available it equals
`clamp(mean + 1, 0, 1)` over the available values, and when no segment
data is available it is the fixed default 0.85. -/
theorem C6_confidence_clamp (segments : Option (List (Option ℚ))) :
    (0 ≤ calculate_confidence_score segments ∧
      calculate_confidence_score segments ≤ 1) ∧
    (∀ segs, segments = some segs → 0 < (segs.filterMap id).length →
      calculate_confidence_score segments =
        max 0 (min 1 ((segs.filterMap id).sum /
          ((segs.filterMap id).length : ℚ) + 1))) ∧
    ((segments.map (fun segs => segs.filterMap id)).getD [] = [] →
      calculate_confidence_score segments = 85/100) := by
  cases segments with
  | none =>
      refine ⟨⟨by norm_num [calculate_confidence_score],
        by norm_num [calculate_confidence_score]⟩, ?_, fun _ => rfl⟩
      intro segs h
      cases h
  | some segs =>
      by_cases hE : segs = []
      · subst hE
        refine ⟨⟨by norm_num [calculate_confidence_score],
          by norm_num [calculate_confidence_score]⟩, ?_, fun _ => rfl⟩
        intro segs' heq hlen
        cases heq
        exact absurd hlen (by simp)
      · have hE2 : segs.isEmpty = false := by
          simpa [List.isEmpty_iff] using hE
        by_cases hP : 0 < (segs.filterMap id).length
        · have hval : calculate_confidence_score (some segs) =
              max 0 (min 1 ((segs.filterMap id).sum /
                ((segs.filterMap id).length : ℚ) + 1)) := by
            simp [calculate_confidence_score, hE2, hP]
          refine ⟨⟨?_, ?_⟩, ?_, ?_⟩
          · rw [hval]; exact le_max_left 0 _
          · rw [hval]
            exact max_le (by norm_num) (min_le_left 1 _)
          · intro segs' heq _
            cases heq
            exact hval
          · intro hnil
            simp only [Option.map_some', Option.getD_some] at hnil
            rw [hnil] at hP
            simp at hP
        · have hval : calculate_confidence_score (some segs) = 85/100 := by
            simp [calculate_confidence_score, hE2, hP]
          refine ⟨⟨by rw [hval]; norm_num, by rw [hval]; norm_num⟩, ?_,
            fun _ => hval⟩
          intro segs' heq hlen
          cases heq
          exact absurd hlen hP

/-- C6 witness: one segment with `avg_logprob = -1/2` gives the clamped
mean; the in-[0,1] bounds at the same input. -/
theorem C6_confidence_clamp_witness :
    (0 ≤ calculate_confidence_score (some [some (-1/2)]) ∧
      calculate_confidence_score (some [some (-1/2)]) ≤ 1) ∧
    (0 < (([some (-1/2)] : List (Option ℚ)).filterMap id).length ∧
      calculate_confidence_score (some [some (-1/2)]) =
        max 0 (min 1 ((([some (-1/2)] : List (Option ℚ)).filterMap id).sum /
          ((([some (-1/2)] : List (Option ℚ)).filterMap id).length : ℚ) + 1))) :=
  ⟨(C6_confidence_clamp (some [some (-1/2)])).1,
   ⟨by simp,
    (C6_confidence_clamp (some [some (-1/2)])).2.1 [some (-1/2)] rfl (by simp)⟩⟩

lemma cached_lookup_spec {α : Type} (stamps : List (String × ℚ))
    (cache : List (String × α)) (now : ℚ) (key : String) (T : ℚ) (v : α)
    (hT : stamps.lookup key = some T) (hv : cache.lookup key = some v) :
    cached_lookup stamps cache now key =
      if now - T < CACHE_MAX_AGE then some v else none := by
  by_cases h : now - T < CACHE_MAX_AGE <;>
    simp [cached_lookup, is_cache_valid, ENABLE_CACHING, hT, hv, h]

/-- C7: a stored cache entry with insertion timestamp `T` is a hit at time
`now` if and only if `now - T < TTL` (TTL = `CACHE_MAX_AGE` = 3600
seconds); in particular at any `now ≥ T + TTL` it is a miss even though it
is still stored — for both the transcription namespace
(`_get_cached_transcription`) and the moderation namespace
(`_get_cached_moderation`), which share `_is_cache_valid`. -/
theorem C7_cache_ttl (stF : FastTransState) (stM : TwmState) (now T T2 : ℚ)
    (file_path : String) (file_size : Nat) (file_mtime : ℚ)
    (params : TransParams) (v : TranscriptionDict) (text : String)
    (r : ModResult)
    (hT : stF.cacheTimestamps.lookup
      (transcription_cache_key file_path file_size file_mtime params) = some T)
    (hv : stF.transcriptionCache.lookup
      (transcription_cache_key file_path file_size file_mtime params) = some v)
    (hT2 : stM.cacheTimestamps.lookup (moderation_cache_key text) = some T2)
    (hr : stM.moderationCache.lookup (moderation_cache_key text) = some r) :
    CACHE_MAX_AGE = 3600 ∧
    (get_cached_transcription stF now file_path file_size file_mtime params =
      some v ↔ now - T < CACHE_MAX_AGE) ∧
    (now ≥ T + CACHE_MAX_AGE →
      get_cached_transcription stF now file_path file_size file_mtime params =
        none) ∧
    (get_cached_moderation stM now text = some r ↔
      now - T2 < CACHE_MAX_AGE) ∧
    (now ≥ T2 + CACHE_MAX_AGE → get_cached_moderation stM now text = none) := by
  have e1 : get_cached_transcription stF now file_path file_size file_mtime
      params = if now - T < CACHE_MAX_AGE then some v else none := by
    rw [get_cached_transcription]
    simp only [ENABLE_CACHING, Bool.not_true, Bool.false_eq_true, if_false]
    exact cached_lookup_spec _ _ _ _ _ _ hT hv
  have e2 : get_cached_moderation stM now text =
      if now - T2 < CACHE_MAX_AGE then some r else none := by
    rw [get_cached_moderation]
    simp only [ENABLE_CACHING, Bool.not_true, Bool.false_eq_true, if_false]
    exact cached_lookup_spec _ _ _ _ _ _ hT2 hr
  refine ⟨rfl, ?_, ?_, ?_, ?_⟩
  · rw [e1]
    by_cases h : now - T < CACHE_MAX_AGE <;> simp [h]
  · intro hge
    have h : ¬(now - T < CACHE_MAX_AGE) := by linarith
    rw [e1, if_neg h]
  · rw [e2]
    by_cases h : now - T2 < CACHE_MAX_AGE <;> simp [h]
  · intro hge
    have h : ¬(now - T2 < CACHE_MAX_AGE) := by linarith
    rw [e2, if_neg h]

/-- C7 witness: singleton caches holding an entry inserted at time 10,
queried at time 100 (a hit, since 90 < 3600). -/
theorem C7_cache_ttl_witness :
    (([(transcription_cache_key "a.wav" 3 7 ⟨none, none, "text", 0⟩,
        (10 : ℚ))] : List (String × ℚ)).lookup
      (transcription_cache_key "a.wav" 3 7 ⟨none, none, "text", 0⟩) =
        some 10 ∧
      ([(moderation_cache_key "hi", (10 : ℚ))] : List (String × ℚ)).lookup
        (moderation_cache_key "hi") = some 10) ∧
    ((get_cached_transcription
        ⟨[(transcription_cache_key "a.wav" 3 7 ⟨none, none, "text", 0⟩,
           { transcript := some "t", file_path := "a.wav",
             language_detected := none, duration := none,
             response_format := "text" })],
          [(transcription_cache_key "a.wav" 3 7 ⟨none, none, "text", 0⟩, 10)]⟩
        100 "a.wav" 3 7 ⟨none, none, "text", 0⟩ =
      some { transcript := some "t", file_path := "a.wav",
             language_detected := none, duration := none,
             response_format := "text" } ↔ (100 : ℚ) - 10 < CACHE_MAX_AGE) ∧
      ((100 : ℚ) ≥ 10 + CACHE_MAX_AGE →
        get_cached_transcription
          ⟨[(transcription_cache_key "a.wav" 3 7 ⟨none, none, "text", 0⟩,
             { transcript := some "t", file_path := "a.wav",
               language_detected := none, duration := none,
               response_format := "text" })],
            [(transcription_cache_key "a.wav" 3 7 ⟨none, none, "text", 0⟩, 10)]⟩
          100 "a.wav" 3 7 ⟨none, none, "text", 0⟩ = none)) :=
  ⟨⟨by simp [List.lookup], by simp [List.lookup]⟩,
   by
    have h := C7_cache_ttl
      ⟨[(transcription_cache_key "a.wav" 3 7 ⟨none, none, "text", 0⟩,
         { transcript := some "t", file_path := "a.wav",
           language_detected := none, duration := none,
           response_format := "text" })],
        [(transcription_cache_key "a.wav" 3 7 ⟨none, none, "text", 0⟩, 10)]⟩
      ⟨[], [("moderation:hi",
          { text := "hi", flagged := false } )], [(moderation_cache_key "hi", 10)]⟩
      100 10 10 "a.wav" 3 7 ⟨none, none, "text", 0⟩
      { transcript := some "t", file_path := "a.wav",
        language_detected := none, duration := none,
        response_format := "text" }
      "hi" { text := "hi", flagged := false }
      (by simp [List.lookup]) (by simp [List.lookup])
      (by simp [List.lookup]) (by simp [List.lookup, moderation_cache_key])
    exact ⟨h.2.1, h.2.2.1⟩⟩

/-- C8: starting from an empty cache, calling
`FastTranscriptionService.transcribe` twice with an identical audio
reference (same path, size, mtime) and identical language/response-format/
temperature parameters, the second call within the TTL, issues exactly one
external speech-to-text call (the first call makes it, the second —
whatever the provider would then return — makes none), and the second call
returns a response equal to the first. -/
theorem C8_cache_idempotence (r : TranscriptionDict) (provider2 : TransOutcome)
    (file_path : String) (file_size : Nat) (file_mtime : ℚ)
    (params : TransParams) (t0 t1 : ℚ) (h : t1 - t0 < CACHE_MAX_AGE) :
    (fast_transcribe (.ok r) ⟨[], []⟩ t0 file_path file_size file_mtime
      params).2.2 = 1 ∧
    (fast_transcribe provider2
      (fast_transcribe (.ok r) ⟨[], []⟩ t0 file_path file_size file_mtime
        params).2.1
      t1 file_path file_size file_mtime params).2.2 = 0 ∧
    (fast_transcribe provider2
      (fast_transcribe (.ok r) ⟨[], []⟩ t0 file_path file_size file_mtime
        params).2.1
      t1 file_path file_size file_mtime params).1 =
      (fast_transcribe (.ok r) ⟨[], []⟩ t0 file_path file_size file_mtime
        params).1 ∧
    (fast_transcribe (.ok r) ⟨[], []⟩ t0 file_path file_size file_mtime
      params).1 =
      .inl { success := true, transcript := r.transcript,
             file_path := r.file_path,
             language_detected := r.language_detected,
             duration := r.duration,
             response_format := r.response_format } := by
  have hmiss : get_cached_transcription ⟨[], []⟩ t0 file_path file_size
      file_mtime params = none := by
    simp [get_cached_transcription, cached_lookup, is_cache_valid,
      ENABLE_CACHING]
  have hrun1 : fast_transcribe (.ok r) ⟨[], []⟩ t0 file_path file_size
      file_mtime params =
      (.inl { success := true, transcript := r.transcript,
              file_path := r.file_path,
              language_detected := r.language_detected,
              duration := r.duration,
              response_format := r.response_format },
       ⟨[(transcription_cache_key file_path file_size file_mtime params,
          { transcript := r.transcript, file_path := r.file_path,
            language_detected := r.language_detected,
            duration := r.duration,
            response_format := r.response_format })],
        [(transcription_cache_key file_path file_size file_mtime params, t0)]⟩,
       1) := by
    simp [fast_transcribe, hmiss, cache_transcription, ENABLE_CACHING,
      assocSet, MAX_CACHE_SIZE]
  have hhit : get_cached_transcription
      ⟨[(transcription_cache_key file_path file_size file_mtime params,
         { transcript := r.transcript, file_path := r.file_path,
           language_detected := r.language_detected,
           duration := r.duration,
           response_format := r.response_format })],
        [(transcription_cache_key file_path file_size file_mtime params, t0)]⟩
      t1 file_path file_size file_mtime params =
      some { transcript := r.transcript, file_path := r.file_path,
             language_detected := r.language_detected,
             duration := r.duration,
             response_format := r.response_format } := by
    simp [get_cached_transcription, cached_lookup, is_cache_valid,
      ENABLE_CACHING, List.lookup, h]
  refine ⟨by rw [hrun1], ?_, ?_, by rw [hrun1]⟩ <;>
    rw [hrun1] <;> simp [fast_transcribe, hhit]

/-- C8 witness: a concrete transcription result on `"f.wav"`, first call at
time 0, second at time 100; the second provider outcome is an error, which
is never consulted. -/
theorem C8_cache_idempotence_witness :
    ((100 : ℚ) - 0 < CACHE_MAX_AGE) ∧
    ((fast_transcribe
        (.ok { transcript := some "hi", file_path := "f.wav",
               language_detected := none, duration := none,
               response_format := "text" })
        ⟨[], []⟩ 0 "f.wav" 3 7 ⟨none, none, "text", 0⟩).2.2 = 1 ∧
      (fast_transcribe (.err "RateLimitError" "limit")
        (fast_transcribe
          (.ok { transcript := some "hi", file_path := "f.wav",
                 language_detected := none, duration := none,
                 response_format := "text" })
          ⟨[], []⟩ 0 "f.wav" 3 7 ⟨none, none, "text", 0⟩).2.1
        100 "f.wav" 3 7 ⟨none, none, "text", 0⟩).2.2 = 0 ∧
      (fast_transcribe (.err "RateLimitError" "limit")
        (fast_transcribe
          (.ok { transcript := some "hi", file_path := "f.wav",
                 language_detected := none, duration := none,
                 response_format := "text" })
          ⟨[], []⟩ 0 "f.wav" 3 7 ⟨none, none, "text", 0⟩).2.1
        100 "f.wav" 3 7 ⟨none, none, "text", 0⟩).1 =
        (fast_transcribe
          (.ok { transcript := some "hi", file_path := "f.wav",
                 language_detected := none, duration := none,
                 response_format := "text" })
          ⟨[], []⟩ 0 "f.wav" 3 7 ⟨none, none, "text", 0⟩).1 ∧
      (fast_transcribe
        (.ok { transcript := some "hi", file_path := "f.wav",
               language_detected := none, duration := none,
               response_format := "text" })
        ⟨[], []⟩ 0 "f.wav" 3 7 ⟨none, none, "text", 0⟩).1 =
        .inl { success := true, transcript := some "hi",
               file_path := "f.wav", language_detected := none,
               duration := none, response_format := "text" }) :=
  ⟨by norm_num [CACHE_MAX_AGE],
   C8_cache_idempotence
     { transcript := some "hi", file_path := "f.wav",
       language_detected := none, duration := none,
       response_format := "text" }
     (.err "RateLimitError" "limit") "f.wav" 3 7 ⟨none, none, "text", 0⟩
     0 100 (by norm_num [CACHE_MAX_AGE])⟩

/-- C9 counterexample: when the first attempt hits a timeout and the
second succeeds, the call is retried (two provider calls) but no backoff
sleep at all is performed — contradicting the claimed 2s backoff before
the second attempt (the `time.sleep` only exists in the rate-limit
handler). -/
theorem C9_timeout_no_backoff_counterexample :
    (transcribe_attempt_loop
      (fun i => if i = 0 then .timeout else .success)).calls = 2 ∧
    (transcribe_attempt_loop
      (fun i => if i = 0 then .timeout else .success)).succeededAt = some 1 ∧
    (transcribe_attempt_loop
      (fun i => if i = 0 then .timeout else .success)).sleeps = [] ∧
    (transcribe_attempt_loop
      (fun i => if i = 0 then .timeout else .success)).sleeps ≠ [2] := by
  refine ⟨by decide, by decide, by decide, by decide⟩

/-- C9 amended: the speech-to-text call is retried at most 2 times
(at most 3 provider calls), only after rate-limit or timeout failures;
rate-limit retries back off 2s then 4s, while timeout retries are
immediate with no backoff (the performed sleeps are exactly
`(i+1)*2` for each retried attempt `i` that hit a rate limit); any other
failure class aborts immediately and is surfaced as a typed
`TranscriptionError` with `error_type = "OpenAIError"`. -/
theorem C9_retry_policy_amended (oracle : Nat → AttemptOutcome) :
    (transcribe_attempt_loop oracle).calls ≤ max_retries + 1 ∧
    (∀ i, i + 1 < (transcribe_attempt_loop oracle).calls →
      oracle i = .rateLimit ∨ oracle i = .timeout) ∧
    (transcribe_attempt_loop oracle).sleeps =
      ((List.range ((transcribe_attempt_loop oracle).calls - 1)).filter
        (fun i => oracle i == .rateLimit)).map (fun i => (i + 1) * 2) ∧
    (∀ i, i < (transcribe_attempt_loop oracle).calls → oracle i = .apiError →
      (transcribe_attempt_loop oracle).calls = i + 1 ∧
      (transcribe_attempt_loop oracle).errorRaised = some .apiErrorExc) ∧
    (∀ fp, (transcribe_attempt_loop oracle).errorRaised.isSome →
      transcribe_audio_error (transcribe_attempt_loop oracle) fp =
        some { error_type := "OpenAIError", error_message := "API error",
               file_path := fp }) := by
  refine ⟨?_, ?_, ?_, ?_, ?_⟩
  · cases h0 : oracle 0 <;> cases h1 : oracle 1 <;> cases h2 : oracle 2 <;>
      simp [transcribe_attempt_loop, transcribe_attempt_step, max_retries,
        h0, h1, h2]
  · intro i hi
    cases h0 : oracle 0 <;> cases h1 : oracle 1 <;> cases h2 : oracle 2 <;>
      simp [transcribe_attempt_loop, transcribe_attempt_step, max_retries,
        h0, h1, h2] at hi <;>
      rcases i with _ | _ | i <;>
      first
        | simp_all
        | omega
  · cases h0 : oracle 0 <;> cases h1 : oracle 1 <;> cases h2 : oracle 2 <;>
      simp [transcribe_attempt_loop, transcribe_attempt_step, max_retries,
        h0, h1, h2, List.range_succ]
  · intro i hi hx
    cases h0 : oracle 0 <;> cases h1 : oracle 1 <;> cases h2 : oracle 2 <;>
      simp [transcribe_attempt_loop, transcribe_attempt_step, max_retries,
        h0, h1, h2] at hi ⊢ <;>
      rcases i with _ | _ | i <;>
      (try simp_all) <;>
      (try omega) <;>
      (try (have h9 : i = 0 := by omega
            subst h9
            simp_all))
  · intro fp hsome
    cases h0 : oracle 0 <;> cases h1 : oracle 1 <;> cases h2 : oracle 2 <;>
      simp_all [transcribe_attempt_loop, transcribe_attempt_step,
        transcribe_audio_error, max_retries]

/-- C9 amended witness: rate-limit on the first two attempts, success on
the third — three calls, sleeps 2s then 4s. -/
theorem C9_retry_policy_amended_witness :
    (transcribe_attempt_loop
      (fun i => if i ≤ 1 then .rateLimit else .success)).calls ≤
        max_retries + 1 ∧
    ((0 : Nat) + 1 < (transcribe_attempt_loop
        (fun i => if i ≤ 1 then .rateLimit else .success)).calls →
      (fun i => if i ≤ 1 then AttemptOutcome.rateLimit
        else AttemptOutcome.success) 0 = .rateLimit ∨
      (fun i => if i ≤ 1 then AttemptOutcome.rateLimit
        else AttemptOutcome.success) 0 = .timeout) ∧
    (transcribe_attempt_loop
      (fun i => if i ≤ 1 then .rateLimit else .success)).sleeps =
      ((List.range ((transcribe_attempt_loop
          (fun i => if i ≤ 1 then .rateLimit else .success)).calls - 1)).filter
        (fun i => (fun i => if i ≤ 1 then AttemptOutcome.rateLimit
          else AttemptOutcome.success) i == .rateLimit)).map
        (fun i => (i + 1) * 2) :=
  ⟨(C9_retry_policy_amended
      (fun i => if i ≤ 1 then .rateLimit else .success)).1,
   (C9_retry_policy_amended
      (fun i => if i ≤ 1 then .rateLimit else .success)).2.1 0,
   (C9_retry_policy_amended
      (fun i => if i ≤ 1 then .rateLimit else .success)).2.2.1⟩

/-- C10: every successful response of `transcribe_and_moderate` has
`is_safe` equal to the negation of `moderation_flagged`. -/
theorem C10_is_safe_negation (env : ModEnv) (call : ClassifierOutcome)
    (provider : TransOutcome) (st : TwmState) (now : ℚ)
    (file_path : String) (file_size : Nat) (file_mtime : ℚ)
    (params : TransParams) (resp : TwmResponse)
    (h : (transcribe_and_moderate env call provider st now file_path
      file_size file_mtime params).1 = .inl resp) :
    resp.is_safe = !resp.moderation_flagged := by
  unfold transcribe_and_moderate at h
  split at h
  · simp only [Sum.inl.injEq] at h
    subst h
    rfl
  · split at h
    · simp at h
    · simp only [Sum.inl.injEq] at h
      subst h
      rfl

/-- C10 witness: a concrete successful run (fresh transcription of
`"f.wav"` yielding transcript `"hi"`, clean moderation). -/
theorem C10_is_safe_negation_witness :
    (transcribe_and_moderate envNone (.err "x")
      (.ok { transcript := some "hi", file_path := "f.wav",
             language_detected := none, duration := none,
             response_format := "text" })
      ⟨[], [], []⟩ 0 "f.wav" 3 7 ⟨none, none, "text", 0⟩).1 =
      .inl { success := true, transcript := some "hi",
             file_path := "f.wav", language_detected := none,
             duration := none, response_format := "text",
             moderation_flagged := false,
             moderation_reason := "Content appears safe after full analysis",
             is_safe := true } ∧
    ({ success := true, transcript := some "hi",
       file_path := "f.wav", language_detected := none,
       duration := none, response_format := "text",
       moderation_flagged := false,
       moderation_reason := "Content appears safe after full analysis",
       is_safe := true } : TwmResponse).is_safe =
      !({ success := true, transcript := some "hi",
          file_path := "f.wav", language_detected := none,
          duration := none, response_format := "text",
          moderation_flagged := false,
          moderation_reason := "Content appears safe after full analysis",
          is_safe := true } : TwmResponse).moderation_flagged :=
  ⟨by decide,
   C10_is_safe_negation envNone (.err "x")
     (.ok { transcript := some "hi", file_path := "f.wav",
            language_detected := none, duration := none,
            response_format := "text" })
     ⟨[], [], []⟩ 0 "f.wav" 3 7 ⟨none, none, "text", 0⟩ _ (by decide)⟩

end SafeTalk
